import Mathlib

/-!
Shallow embedding of the coordinator's DLC channel-event reconciliation engine
(`coordinator/src/node/channel.rs`): the shadow state machine
(`shadow_dlc_channel`), the closure-check / settlement updater
(`check_for_dlc_channel_closures`) and the realized-PnL calculator
(`calculate_trader_realized_pnl_from_cet`), together with the durable store
operations and external-engine interfaces they consume.

Machine integers (sats, ids) are modelled as `Nat`; signed PnL as `Int`.
Opaque identifiers (txids, public keys, channel/contract/reference ids,
script bytes) are modelled as `Nat`.
-/

namespace TenTenOne

abbrev Txid := Nat
abbrev PublicKey := Nat
abbrev DlcChannelId := Nat
abbrev ContractId := Nat
abbrev ReferenceId := Nat
abbrev ProtocolId := Nat
abbrev Script := Nat
abbrev Amount := Nat

/-- A transaction output: `value` in sats and the locking script. -/
structure TxOut where
  value : Nat
  script_pubkey : Script
deriving DecidableEq, Repr

/-- A (signed) bitcoin transaction, reduced to what `channel.rs` reads:
its id (`txid()`) and its outputs. -/
structure Transaction where
  txid : Txid
  output : List TxOut
deriving DecidableEq, Repr

/-- Party parameters of a signed DLC channel; `channel.rs` reads only the
`collateral` field (`own_params.collateral` / `counter_params.collateral`). -/
structure PartyParams where
  collateral : Amount
deriving DecidableEq, Repr

/-- Sub-state of a signed DLC channel, reduced to the variants matched in
`shadow_dlc_channel`; every other sub-state is `otherState`. -/
inductive SignedChannelState where
  | settledClosing (settle_transaction : Transaction)
  | closing (buffer_transaction : Transaction)
  | collaborativeCloseOffered (close_tx : Transaction)
  | otherState (tag : Nat)
deriving DecidableEq, Repr

/-- The external engine's signed-channel snapshot, reduced to the fields read
by `shadow_dlc_channel`. -/
structure SignedChannel where
  channel_id : DlcChannelId
  counter_party : PublicKey
  own_params : PartyParams
  counter_params : PartyParams
  fund_tx : Transaction
  state : SignedChannelState
deriving DecidableEq, Repr

/-- A channel being force-closed via its buffer transaction. -/
structure ClosingChannel where
  channel_id : DlcChannelId
  counter_party : PublicKey
  buffer_transaction : Transaction
deriving DecidableEq, Repr

/-- A settled channel being force-closed: settle transaction plus claim
transaction. -/
structure SettledClosingChannel where
  channel_id : DlcChannelId
  counter_party : PublicKey
  settle_transaction : Transaction
  claim_transaction : Transaction
deriving DecidableEq, Repr

/-- A channel closed by punishing a cheating counterparty. -/
structure ClosedPunishedChannel where
  channel_id : DlcChannelId
  counter_party : PublicKey
  punish_txid : Txid
deriving DecidableEq, Repr

/-- A definitively closed channel carrying its closing txid. -/
structure ClosedChannel where
  channel_id : DlcChannelId
  counter_party : PublicKey
  closing_txid : Txid
deriving DecidableEq, Repr

/-- The external engine's channel object, reduced to the variants matched in
`shadow_dlc_channel`; every other variant is `otherChannel`. -/
inductive Channel where
  | signed (c : SignedChannel)
  | closing (c : ClosingChannel)
  | settledClosing (c : SettledClosingChannel)
  | closedPunished (c : ClosedPunishedChannel)
  | closed (c : ClosedChannel)
  | counterClosed (c : ClosedChannel)
  | collaborativelyClosed (c : ClosedChannel)
  | otherChannel (channel_id : DlcChannelId) (counter_party : PublicKey) (tag : Nat)
deriving DecidableEq, Repr

/-- `Channel::get_id`. -/
def Channel.get_id : Channel → DlcChannelId
  | .signed c => c.channel_id
  | .closing c => c.channel_id
  | .settledClosing c => c.channel_id
  | .closedPunished c => c.channel_id
  | .closed c => c.channel_id
  | .counterClosed c => c.channel_id
  | .collaborativelyClosed c => c.channel_id
  | .otherChannel cid _ _ => cid

/-- `Channel::get_counter_party_id`. -/
def Channel.get_counter_party_id : Channel → PublicKey
  | .signed c => c.counter_party
  | .closing c => c.counter_party
  | .settledClosing c => c.counter_party
  | .closedPunished c => c.counter_party
  | .closed c => c.counter_party
  | .counterClosed c => c.counter_party
  | .collaborativelyClosed c => c.counter_party
  | .otherChannel _ cp _ => cp

/-- Modelled from the spec: the external engine's channel lifecycle event
stream tags (the `DlcChannelEvent` enum lives outside `src/`; its variant
list is the one matched exhaustively in `channel.rs`, and per §6 every event
carries an optional reference/correlation id). -/
inductive DlcChannelEvent where
  | offered (reference_id : Option ReferenceId)
  | accepted (reference_id : Option ReferenceId)
  | established (reference_id : Option ReferenceId)
  | settledOffered (reference_id : Option ReferenceId)
  | settledReceived (reference_id : Option ReferenceId)
  | settledAccepted (reference_id : Option ReferenceId)
  | settledConfirmed (reference_id : Option ReferenceId)
  | settled (reference_id : Option ReferenceId)
  | settledClosing (reference_id : Option ReferenceId)
  | closing (reference_id : Option ReferenceId)
  | closedPunished (reference_id : Option ReferenceId)
  | collaborativeCloseOffered (reference_id : Option ReferenceId)
  | closed (reference_id : Option ReferenceId)
  | counterClosed (reference_id : Option ReferenceId)
  | collaborativelyClosed (reference_id : Option ReferenceId)
  | renewOffered (reference_id : Option ReferenceId)
  | renewAccepted (reference_id : Option ReferenceId)
  | renewConfirmed (reference_id : Option ReferenceId)
  | renewFinalized (reference_id : Option ReferenceId)
  | failedAccept (reference_id : Option ReferenceId)
  | failedSign (reference_id : Option ReferenceId)
  | cancelled (reference_id : Option ReferenceId)
  | deleted (reference_id : Option ReferenceId)
deriving DecidableEq, Repr

/-- Modelled from the spec: `get_reference_id` returns the optional
reference/correlation id an event carries (§6). -/
def DlcChannelEvent.get_reference_id : DlcChannelEvent → Option ReferenceId
  | .offered r => r
  | .accepted r => r
  | .established r => r
  | .settledOffered r => r
  | .settledReceived r => r
  | .settledAccepted r => r
  | .settledConfirmed r => r
  | .settled r => r
  | .settledClosing r => r
  | .closing r => r
  | .closedPunished r => r
  | .collaborativeCloseOffered r => r
  | .closed r => r
  | .counterClosed r => r
  | .collaborativelyClosed r => r
  | .renewOffered r => r
  | .renewAccepted r => r
  | .renewConfirmed r => r
  | .renewFinalized r => r
  | .failedAccept r => r
  | .failedSign r => r
  | .cancelled r => r
  | .deleted r => r

/-- Modelled from the spec: `DlcProtocolType` (defined in
`coordinator/src/dlc_protocol.rs`, outside `src/`) is a "tagged variant over
{OpenChannel, OpenPosition, Settle, Rollover, ResizePosition, Close,
ForceClose}, each carrying protocol-specific fields (at minimum the
counterparty identity)" (§3). -/
inductive DlcProtocolType where
  | openChannel (trader : PublicKey)
  | openPosition (trader : PublicKey)
  | settle (trader : PublicKey)
  | rollover (trader : PublicKey)
  | resizePosition (trader : PublicKey)
  | close (trader : PublicKey)
  | forceClose (trader : PublicKey)
deriving DecidableEq, Repr

/-- `DlcChannelState` (`channel.rs` lines 37–44). -/
inductive DlcChannelState where
  | Pending
  | Open
  | Closing
  | Closed
  | Failed
  | Cancelled
deriving DecidableEq, Repr

/-- The shadow `DlcChannel` record (`channel.rs` lines 46–62), with the
protocol id it was created under as the secondary key used by
`set_channel_failed` / `set_channel_cancelled`; timestamps are elided. -/
structure DlcChannelRecord where
  open_protocol_id : ProtocolId
  channel_id : DlcChannelId
  trader : PublicKey
  channel_state : DlcChannelState
  trader_reserve_sats : Amount
  coordinator_reserve_sats : Amount
  coordinator_funding_sats : Amount
  trader_funding_sats : Amount
  funding_txid : Option Txid
  close_txid : Option Txid
  settle_txid : Option Txid
  buffer_txid : Option Txid
  claim_txid : Option Txid
  punish_txid : Option Txid
deriving DecidableEq, Repr

/-- Modelled from the spec: a `DlcProtocol` execution record (§3) reduced to
the fields read by `channel.rs`: identity, trader, channel id, optional
contract id, protocol type. -/
structure DlcProtocolRecord where
  protocol_id : ProtocolId
  trader : PublicKey
  channel_id : DlcChannelId
  contract_id : Option ContractId
  protocol_type : DlcProtocolType
deriving DecidableEq, Repr

/-- Position lifecycle states touched by the reconciler (§3): Open,
Closing (optional price, unknown at force-close time) and Closed
(realized pnl and closing price). Prices are the parsed oracle values,
modelled as `Nat`. -/
inductive PositionState where
  | open
  | closing (closing_price : Option Nat)
  | closed (pnl : Int) (closing_price : Nat)
deriving DecidableEq, Repr

def PositionState.isOpen : PositionState → Bool
  | .open => true
  | _ => false

def PositionState.isClosing : PositionState → Bool
  | .closing _ => true
  | _ => false

/-- A trader's position row, reduced to what the closure-check path reads. -/
structure Position where
  id : Nat
  trader : PublicKey
  state : PositionState
deriving DecidableEq, Repr

/-- The durable store: shadow channels, protocol records, positions. -/
structure Db where
  dlc_channels : List DlcChannelRecord
  dlc_protocols : List DlcProtocolRecord
  positions : List Position
deriving DecidableEq, Repr

/-- An oracle attestation: the oracle's signed outcome digit strings. -/
structure Attestation where
  outcomes : List String
deriving DecidableEq, Repr

/-- A pre-closed contract (CET broadcast, not yet confirmed): optional
attestations, and the signed CET always present. -/
structure PreClosedContract where
  attestations : Option (List Attestation)
  signed_cet : Transaction
deriving DecidableEq, Repr

/-- A closed contract: optional attestations and optional signed CET. -/
structure ClosedContract where
  attestations : Option (List Attestation)
  signed_cet : Option Transaction
deriving DecidableEq, Repr

/-- The external engine's contract object, reduced to the variants matched in
`check_for_dlc_channel_closures`; every other contract state is
`otherContract`. -/
inductive Contract where
  | preClosed (c : PreClosedContract)
  | closed (c : ClosedContract)
  | otherContract (tag : Nat)
deriving DecidableEq, Repr

/-- The external channel/contract engine interface consumed by `channel.rs`
(spec §6): by-reference-id channel lookup, usable-balance queries for both
sides, by-id contract lookup, and the "is this script mine" wallet oracle.
Fallible lookups return `Option`. -/
structure Engine where
  get_dlc_channel_by_reference_id : ReferenceId → Option Channel
  get_dlc_channel_usable_balance : DlcChannelId → Option Amount
  get_dlc_channel_usable_balance_counterparty : DlcChannelId → Option Amount
  get_contract_by_id : ContractId → Option Contract
  is_mine : Script → Bool

/-- Error outcomes of `shadow_dlc_channel` (in the source these are all
`anyhow` errors; the tags here distinguish the distinct `bail!`/`?` sites). -/
inductive ShadowErr where
  | missingReferenceId
  | channelNotFound
  | unexpectedChannelState
  | protocolNotFound
  | balanceUnavailable
deriving DecidableEq, Repr

/-- Error outcomes of `check_for_dlc_channel_closures` and the PnL
calculator (tags for the distinct error sites of the source). -/
inductive ClosureErr where
  | missingReferenceId
  | channelNotFound
  | protocolNotFound
  | missingContractId
  | missingContract
  | missingClosingPosition
  | unexpectedContractState
  | missingAttestation
  | priceParseFailure
  | dlcChannelNotFound
deriving DecidableEq, Repr

/-! ### Durable store operations

These live in `coordinator/src/db/`, outside `src/`; each is modelled from
the spec's store-operation list (§6) and the dispatch-table actions (§4.2),
keyed exactly as the call sites in `channel.rs` pass their arguments. -/

/-- Modelled from the spec: `get_dlc_channel` — fetch the shadow channel
record by channel id (§4.4 step 2). -/
def get_dlc_channel (db : Db) (channel_id : DlcChannelId) : Option DlcChannelRecord :=
  db.dlc_channels.find? (fun r => r.channel_id == channel_id)

/-- Modelled from the spec: `get_dlc_protocol` — fetch the protocol record
by protocol id (§6). -/
def get_dlc_protocol (db : Db) (protocol_id : ProtocolId) : Option DlcProtocolRecord :=
  db.dlc_protocols.find? (fun p => p.protocol_id == protocol_id)

/-- Modelled from the spec: `insert_pending_dlc_channel` — "Insert new
`DlcChannel` in Pending state with trader identity" (§4.2, Offered). -/
def insert_pending_dlc_channel (db : Db) (protocol_id : ProtocolId)
    (channel_id : DlcChannelId) (trader : PublicKey) : Db :=
  { db with dlc_channels := db.dlc_channels ++
      [{ open_protocol_id := protocol_id, channel_id := channel_id, trader := trader,
         channel_state := .Pending, trader_reserve_sats := 0, coordinator_reserve_sats := 0,
         coordinator_funding_sats := 0, trader_funding_sats := 0, funding_txid := none,
         close_txid := none, settle_txid := none, buffer_txid := none, claim_txid := none,
         punish_txid := none }] }

/-- Modelled from the spec: `set_dlc_channel_open` — "transition `DlcChannel`
Pending→Open, recording funding tx id and initial balances" (§4.2,
Established/Settled, OpenChannel branch). -/
def set_dlc_channel_open (db : Db) (protocol_id : ProtocolId) (channel_id : DlcChannelId)
    (funding_txid : Txid) (coordinator_reserve trader_reserve : Amount)
    (coordinator_funding trader_funding : Amount) : Db :=
  { db with dlc_channels := db.dlc_channels.map (fun r =>
      if r.open_protocol_id == protocol_id && r.channel_id == channel_id then
        { r with channel_state := .Open, funding_txid := some funding_txid,
                 coordinator_reserve_sats := coordinator_reserve,
                 trader_reserve_sats := trader_reserve,
                 coordinator_funding_sats := coordinator_funding,
                 trader_funding_sats := trader_funding }
      else r) }

/-- Modelled from the spec: `update_channel` — "update only the current
reserve balances (funding amounts immutable)" (§4.2, Established/Settled,
position-protocol branch; §6 "update channel balances"). -/
def update_channel (db : Db) (channel_id : DlcChannelId)
    (coordinator_reserve trader_reserve : Amount) : Db :=
  { db with dlc_channels := db.dlc_channels.map (fun r =>
      if r.channel_id == channel_id then
        { r with coordinator_reserve_sats := coordinator_reserve,
                 trader_reserve_sats := trader_reserve }
      else r) }

/-- Modelled from the spec: `set_channel_failed` — the store's "set …
failed" operation (§6) moves the shadow `DlcChannel` created under the given
protocol id into its terminal `Failed` state (§3: lifecycle "terminal in
Closed, Failed, or Cancelled"). -/
def set_channel_failed (db : Db) (protocol_id : ProtocolId) : Db :=
  { db with dlc_channels := db.dlc_channels.map (fun r =>
      if r.open_protocol_id == protocol_id then { r with channel_state := .Failed } else r) }

/-- Modelled from the spec: `set_channel_cancelled` — the store's "set …
cancelled" operation (§6) moves the shadow `DlcChannel` created under the
given protocol id into its terminal `Cancelled` state (§3). -/
def set_channel_cancelled (db : Db) (protocol_id : ProtocolId) : Db :=
  { db with dlc_channels := db.dlc_channels.map (fun r =>
      if r.open_protocol_id == protocol_id then { r with channel_state := .Cancelled } else r) }

/-- Modelled from the spec: `set_channel_force_closing` — "Persist buffer-tx
id, transition `DlcChannel`→Closing" (§4.2, Closing). -/
def set_channel_force_closing (db : Db) (channel_id : DlcChannelId) (buffer_txid : Txid) : Db :=
  { db with dlc_channels := db.dlc_channels.map (fun r =>
      if r.channel_id == channel_id then
        { r with channel_state := .Closing, buffer_txid := some buffer_txid }
      else r) }

/-- Modelled from the spec: `set_channel_force_closing_settled` — "Persist
settle-tx id and (if present) claim-tx id on the `DlcChannel`, transition
toward Closing" (§4.2, SettledClosing). -/
def set_channel_force_closing_settled (db : Db) (channel_id : DlcChannelId)
    (settle_txid : Txid) (claim_txid : Option Txid) : Db :=
  { db with dlc_channels := db.dlc_channels.map (fun r =>
      if r.channel_id == channel_id then
        { r with channel_state := .Closing, settle_txid := some settle_txid,
                 claim_txid := claim_txid }
      else r) }

/-- Modelled from the spec: `set_channel_punished` — "Persist punish-tx id,
transition `DlcChannel`→Closed (punished)" (§4.2, ClosedPunished). -/
def set_channel_punished (db : Db) (channel_id : DlcChannelId) (punish_txid : Txid) : Db :=
  { db with dlc_channels := db.dlc_channels.map (fun r =>
      if r.channel_id == channel_id then
        { r with channel_state := .Closed, punish_txid := some punish_txid }
      else r) }

/-- Modelled from the spec: `set_channel_collab_closing` — "Persist close-tx
id as a provisional marker for the collaborative-closing state" (§4.2,
CollaborativeCloseOffered). -/
def set_channel_collab_closing (db : Db) (channel_id : DlcChannelId) (close_txid : Txid) : Db :=
  { db with dlc_channels := db.dlc_channels.map (fun r =>
      if r.channel_id == channel_id then
        { r with channel_state := .Closing, close_txid := some close_txid }
      else r) }

/-- Modelled from the spec: `set_channel_collab_closed` — "Persist close-tx
id, transition `DlcChannel`→Closed" (§4.2, Closed / CounterClosed /
CollaborativelyClosed). -/
def set_channel_collab_closed (db : Db) (channel_id : DlcChannelId) (close_txid : Txid) : Db :=
  { db with dlc_channels := db.dlc_channels.map (fun r =>
      if r.channel_id == channel_id then
        { r with channel_state := .Closed, close_txid := some close_txid }
      else r) }

/-- Modelled from the spec: `Position::set_open_position_to_closing` — "set
the trader's currently-Open position to `Closing` with unknown price"
(§4.3); returns the number of affected rows together with the updated
table. -/
def set_open_position_to_closing (positions : List Position) (trader : PublicKey)
    (closing_price : Option Nat) : Nat × List Position :=
  ((positions.filter (fun p => p.trader == trader && p.state.isOpen)).length,
   positions.map (fun p =>
     if p.trader == trader && p.state.isOpen then
       { p with state := .closing closing_price }
     else p))

/-- Modelled from the spec: `Position::get_position_by_trader` with the
`Closing` state filter — "Locate the trader's position currently in
`Closing` state (the price value stored at that point is a placeholder and
irrelevant to the lookup)" (§4.3). -/
def get_position_by_trader (positions : List Position) (trader : PublicKey) :
    Option Position :=
  positions.find? (fun p => p.trader == trader && p.state.isClosing)

/-- Modelled from the spec: `Position::set_position_to_closed_with_pnl` —
"Transition it to `Closed` with the computed PnL and price" (§4.3); returns
the number of affected rows together with the updated table. -/
def set_position_to_closed_with_pnl (positions : List Position) (position_id : Nat)
    (pnl : Int) (closing_price : Nat) : Nat × List Position :=
  ((positions.filter (fun p => p.id == position_id)).length,
   positions.map (fun p =>
     if p.id == position_id then { p with state := .closed pnl closing_price } else p))

/-! ### The three operations of `channel.rs` -/

/-- `calculate_trader_realized_pnl_from_cet` (`channel.rs` lines 489–515):
sum the values of the CET outputs whose script is not mine, look up the
stored shadow channel, and return payout minus `trader_reserve_sats` as a
signed integer. -/
def calculate_trader_realized_pnl_from_cet (env : Engine) (db : Db)
    (channel_id : DlcChannelId) (signed_cet : Transaction) : Except ClosureErr Int :=
  let trader_payout : Nat :=
    ((signed_cet.output.filter (fun o => !(env.is_mine o.script_pubkey))).map
      (fun o => o.value)).sum
  match get_dlc_channel db channel_id with
  | none => .error .dlcChannelNotFound
  | some dlc_channel =>
    .ok ((trader_payout : Int) - (dlc_channel.trader_reserve_sats : Int))

/-- `shadow_dlc_channel` (`channel.rs` lines 139–340): reject events without
a reference id; handle `Deleted` before any channel lookup; otherwise
resolve the channel by reference id and dispatch on the event tag.
`ProtocolId::try_from` over the opaque reference id is modelled as the
identity. The result pairs the store state after the call with the
success/error outcome. -/
def shadow_dlc_channel (env : Engine) (db : Db) (dlc_channel_event : DlcChannelEvent) :
    Db × Except ShadowErr Unit :=
  match dlc_channel_event.get_reference_id with
  | none => (db, .error .missingReferenceId)
  | some protocol_id =>
    match dlc_channel_event with
    | .deleted _ =>
      -- the delete event is handled here, as the corresponding channel no
      -- longer exists upstream
      (set_channel_failed db protocol_id, .ok ())
    | _ =>
      match env.get_dlc_channel_by_reference_id protocol_id with
      | none => (db, .error .channelNotFound)
      | some channel =>
        match dlc_channel_event with
        | .offered _ =>
          (insert_pending_dlc_channel db protocol_id channel.get_id
            channel.get_counter_party_id, .ok ())
        | .established _ | .settled _ =>
          match channel with
          | .signed signed_channel =>
            match env.get_dlc_channel_usable_balance_counterparty signed_channel.channel_id,
                  env.get_dlc_channel_usable_balance signed_channel.channel_id with
            | some trader_reserve, some coordinator_reserve =>
              let coordinator_funding := signed_channel.own_params.collateral
              let trader_funding := signed_channel.counter_params.collateral
              match get_dlc_protocol db protocol_id with
              | none => (db, .error .protocolNotFound)
              | some dlc_protocol =>
                match dlc_protocol.protocol_type with
                | .openChannel _ =>
                  (set_dlc_channel_open db protocol_id channel.get_id
                    signed_channel.fund_tx.txid coordinator_reserve trader_reserve
                    coordinator_funding trader_funding, .ok ())
                | .openPosition _ | .settle _ | .rollover _ | .resizePosition _ =>
                  (update_channel db channel.get_id coordinator_reserve trader_reserve,
                   .ok ())
                | .close _ | .forceClose _ => (db, .ok ()) -- ignored
            | _, _ => (db, .error .balanceUnavailable)
          | _ => (db, .error .unexpectedChannelState)
        | .settledClosing _ =>
          match channel with
          | .signed sc =>
            match sc.state with
            | .settledClosing settle_transaction =>
              (set_channel_force_closing_settled db channel.get_id
                settle_transaction.txid none, .ok ())
            | _ => (db, .error .unexpectedChannelState)
          | .settledClosing scc =>
            (set_channel_force_closing_settled db channel.get_id
              scc.settle_transaction.txid (some scc.claim_transaction.txid), .ok ())
          | _ => (db, .error .unexpectedChannelState)
        | .closing _ =>
          match channel with
          | .signed sc =>
            match sc.state with
            | .closing buffer_transaction =>
              (set_channel_force_closing db channel.get_id buffer_transaction.txid, .ok ())
            | _ => (db, .error .unexpectedChannelState)
          | .closing cc =>
            (set_channel_force_closing db channel.get_id cc.buffer_transaction.txid, .ok ())
          | _ => (db, .error .unexpectedChannelState)
        | .closedPunished _ =>
          match channel with
          | .closedPunished cpc =>
            (set_channel_punished db channel.get_id cpc.punish_txid, .ok ())
          | _ => (db, .error .unexpectedChannelState)
        | .collaborativeCloseOffered _ =>
          match channel with
          | .signed sc =>
            match sc.state with
            | .collaborativeCloseOffered close_tx =>
              (set_channel_collab_closing db channel.get_id close_tx.txid, .ok ())
            | _ => (db, .error .unexpectedChannelState)
          | _ => (db, .error .unexpectedChannelState)
        | .closed _ | .counterClosed _ | .collaborativelyClosed _ =>
          match channel with
          | .closed c =>
            (set_channel_collab_closed db channel.get_id c.closing_txid, .ok ())
          | .counterClosed c =>
            (set_channel_collab_closed db channel.get_id c.closing_txid, .ok ())
          | .collaborativelyClosed c =>
            (set_channel_collab_closed db channel.get_id c.closing_txid, .ok ())
          | _ => (db, .error .unexpectedChannelState)
        | .failedAccept _ | .failedSign _ =>
          (set_channel_failed db protocol_id, .ok ())
        | .cancelled _ =>
          (set_channel_cancelled db protocol_id, .ok ())
        | .deleted _ => (db, .ok ()) -- delete is handled above
        | .accepted _ | .settledOffered _ | .settledReceived _ | .settledAccepted _
        | .settledConfirmed _ | .renewOffered _ | .renewAccepted _ | .renewConfirmed _
        | .renewFinalized _ => (db, .ok ()) -- intermediate state changes are ignored

/-- Binary digit accumulator for the price parse. -/
def parse_bin_digits : List Char → Nat → Except ClosureErr Nat
  | [], acc => .ok acc
  | c :: cs, acc =>
    if c = '0' then parse_bin_digits cs (2 * acc)
    else if c = '1' then parse_bin_digits cs (2 * acc + 1)
    else .error .priceParseFailure

/-- Model of `rust_decimal::Decimal::from_str_radix(s, 2)` restricted to the
oracle's digit-string inputs: a non-empty string of binary digits parses to
its base-2 value; anything else is a parse error. -/
def from_str_radix_2 (s : String) : Except ClosureErr Nat :=
  if s.data.isEmpty then .error .priceParseFailure
  else parse_bin_digits s.data 0

/-- The closing-price parse of `check_for_dlc_channel_closures`
(`channel.rs` lines 417–424): the joined outcome digit strings of the first
attestation, interpreted in base 2. -/
def parse_closing_price (attestations : List Attestation) : Except ClosureErr Nat :=
  match attestations.head? with
  | none => .error .missingAttestation -- "at least one attestation"
  | some attestation => from_str_radix_2 (String.join attestation.outcomes)

/-- The contract-state requirement of the `Closed`/`CounterClosed` branch
(`channel.rs` lines 398–431): a `PreClosed` contract with attestations
present, or a `Closed` contract with attestations and signed CET present;
every other shape is rejected. -/
def contract_closure_data : Contract → Option (List Attestation × Transaction)
  | .preClosed c =>
    match c.attestations with
    | some attestations => some (attestations, c.signed_cet)
    | none => none
  | .closed c =>
    match c.attestations, c.signed_cet with
    | some attestations, some signed_cet => some (attestations, signed_cet)
    | _, _ => none
  | .otherContract _ => none

/-- The final update of the `Closed`/`CounterClosed` branch (`channel.rs`
lines 439–449): set the located position to closed with pnl and price; more
than zero affected rows is logged at info level, zero rows is logged as a
warning, and the event succeeds either way. -/
def finalize_position_close (db : Db) (position_id : Nat) (pnl : Int)
    (closing_price : Nat) : Db × Except ClosureErr Unit :=
  let updated := set_position_to_closed_with_pnl db.positions position_id pnl closing_price
  if updated.1 > 0 then
    ({ db with positions := updated.2 }, .ok ())
  else
    ({ db with positions := updated.2 }, .ok ())

/-- `check_for_dlc_channel_closures` (`channel.rs` lines 350–484): on
`Closing` move the trader's open position to closing with unknown price; on
`Closed`/`CounterClosed` compute realized pnl and closing price from the
contract and close the trader's closing position; on
`CollaborativelyClosed` finish the dlc protocol. The middle component lists
the protocol ids passed to the Protocol Executor's
`finish_dlc_protocol` (modelled from the spec, §4.1, as an emitted effect). -/
def check_for_dlc_channel_closures (env : Engine) (db : Db)
    (dlc_channel_event : DlcChannelEvent) :
    Db × List ProtocolId × Except ClosureErr Unit :=
  match dlc_channel_event.get_reference_id with
  | none => (db, [], .error .missingReferenceId)
  | some reference_id =>
    let protocol_id := reference_id
    match dlc_channel_event with
    | .closing _ =>
      match env.get_dlc_channel_by_reference_id reference_id with
      | none => (db, [], .error .channelNotFound)
      | some channel =>
        let trader_id := channel.get_counter_party_id
        -- we do not know the price yet, since we have to wait for the
        -- position to expire
        let updated := set_open_position_to_closing db.positions trader_id none
        ({ db with positions := updated.2 }, [], .ok ())
    | .closed _ | .counterClosed _ =>
      match get_dlc_protocol db protocol_id with
      | none => (db, [], .error .protocolNotFound)
      | some dlc_protocol =>
        match dlc_protocol.contract_id with
        | none => (db, [], .error .missingContractId)
        | some contract_id =>
          match env.get_contract_by_id contract_id with
          | none => (db, [], .error .missingContract)
          | some contract =>
            match get_position_by_trader db.positions dlc_protocol.trader with
            | none => (db, [], .error .missingClosingPosition)
            | some position =>
              match contract_closure_data contract with
              | none => (db, [], .error .unexpectedContractState)
              | some (attestations, signed_cet) =>
                match calculate_trader_realized_pnl_from_cet env db
                    dlc_protocol.channel_id signed_cet with
                | .error e => (db, [], .error e)
                | .ok trader_realized_pnl_sat =>
                  match parse_closing_price attestations with
                  | .error e => (db, [], .error e)
                  | .ok closing_price =>
                    let finalized := finalize_position_close db position.id
                      trader_realized_pnl_sat closing_price
                    (finalized.1, [], finalized.2)
    | .collaborativelyClosed _ =>
      match env.get_dlc_channel_by_reference_id reference_id with
      | none => (db, [], .error .channelNotFound)
      | some _channel =>
        (db, [protocol_id], .ok ())
    | _ => (db, [], .ok ()) -- ignored

/-! ### Auxiliary predicates used by the theorems -/

/-- The protocol types whose Established/Settled handling updates only the
reserve balances. -/
def DlcProtocolType.isBalanceUpdate : DlcProtocolType → Bool
  | .openPosition _ | .settle _ | .rollover _ | .resizePosition _ => true
  | _ => false

/-- The closure protocol types, ignored by the Established/Settled
handling. -/
def DlcProtocolType.isCloseProtocol : DlcProtocolType → Bool
  | .close _ | .forceClose _ => true
  | _ => false

/-- Recognizer for the OpenChannel protocol type. -/
def DlcProtocolType.isOpenChannel : DlcProtocolType → Bool
  | .openChannel _ => true
  | _ => false

/-- The intermediate negotiation events that `shadow_dlc_channel` explicitly
ignores. -/
def DlcChannelEvent.isIntermediate : DlcChannelEvent → Bool
  | .accepted _ | .settledOffered _ | .settledReceived _ | .settledAccepted _
  | .settledConfirmed _ | .renewOffered _ | .renewAccepted _ | .renewConfirmed _
  | .renewFinalized _ => true
  | _ => false

/-- Two shadow channel records that agree everywhere except possibly on the
two current reserve balances. -/
def reserves_only_changed (r rNew : DlcChannelRecord) : Prop :=
  rNew.open_protocol_id = r.open_protocol_id ∧ rNew.channel_id = r.channel_id ∧
  rNew.trader = r.trader ∧ rNew.channel_state = r.channel_state ∧
  rNew.coordinator_funding_sats = r.coordinator_funding_sats ∧
  rNew.trader_funding_sats = r.trader_funding_sats ∧
  rNew.funding_txid = r.funding_txid ∧ rNew.close_txid = r.close_txid ∧
  rNew.settle_txid = r.settle_txid ∧ rNew.buffer_txid = r.buffer_txid ∧
  rNew.claim_txid = r.claim_txid ∧ rNew.punish_txid = r.punish_txid

/-- The record matching (protocol id, channel id) became Open with the
funding data recorded; every other record is untouched. -/
def open_transition_applied (protocol_id : ProtocolId) (channel_id : DlcChannelId)
    (funding_txid : Txid) (coordinator_reserve trader_reserve : Amount)
    (coordinator_funding trader_funding : Amount)
    (r rNew : DlcChannelRecord) : Prop :=
  if r.open_protocol_id == protocol_id && r.channel_id == channel_id then
    rNew.channel_state = .Open ∧ rNew.funding_txid = some funding_txid ∧
    rNew.coordinator_funding_sats = coordinator_funding ∧
    rNew.trader_funding_sats = trader_funding ∧
    rNew.coordinator_reserve_sats = coordinator_reserve ∧
    rNew.trader_reserve_sats = trader_reserve
  else rNew = r

/-- The record matching the channel id got the close txid recorded and
became Closed; every other record is untouched. -/
def collab_closed_applied (channel_id : DlcChannelId) (close_txid : Txid)
    (r rNew : DlcChannelRecord) : Prop :=
  if r.channel_id == channel_id then
    rNew.close_txid = some close_txid ∧ rNew.channel_state = .Closed
  else rNew = r

/-- The trader's Open positions became Closing with the given price; every
other position is untouched. -/
def open_to_closing_applied (trader : PublicKey) (p pNew : Position) : Prop :=
  if p.trader == trader && p.state.isOpen then
    pNew = { p with state := .closing none }
  else pNew = p

/-! ### Helper lemmas -/

theorem forall2_map_self {α : Type} {R : α → α → Prop} {f : α → α}
    (h : ∀ x, R x (f x)) : ∀ l : List α, List.Forall₂ R l (l.map f)
  | [] => List.Forall₂.nil
  | x :: xs => List.Forall₂.cons (h x) (forall2_map_self h xs)

theorem map_id_of_mem {α : Type} {f : α → α} :
    ∀ {l : List α}, (∀ x ∈ l, f x = x) → l.map f = l
  | [], _ => rfl
  | x :: xs, h => by
    simp only [List.map_cons, h x (List.mem_cons_self x xs)]
    exact congrArg (x :: ·) (map_id_of_mem fun y hy => h y (List.mem_cons_of_mem x hy))

/-- `shadow_dlc_channel` on an event without a reference id: error, no
change. -/
theorem shadow_eval_none (env : Engine) (db : Db) (ev : DlcChannelEvent)
    (h : ev.get_reference_id = none) :
    shadow_dlc_channel env db ev = (db, .error .missingReferenceId) := by
  unfold shadow_dlc_channel
  rw [h]

/-! ### Concrete fixtures for witnesses and counterexamples -/

/-- A signed CET with the trader-owned output (script 1, not the
coordinator's) worth 5000 sats. -/
def exCetGain : Transaction := ⟨100, [⟨5000, 1⟩, ⟨9300, 0⟩]⟩

/-- A signed CET with trader-owned outputs (scripts 1 and 2) worth 4000 sats
in total. -/
def exCetLoss : Transaction := ⟨101, [⟨1500, 1⟩, ⟨2500, 2⟩, ⟨999, 0⟩]⟩

/-- A shadow channel record: channel 7, protocol 9, trader 11, trader
reserve 4700 sats. -/
def exChannelRecord : DlcChannelRecord :=
  ⟨9, 7, 11, .Open, 4700, 10000, 8000, 7000, some 50, none, none, none, none, none⟩

/-- An open-position protocol record: protocol 9, trader 11, channel 7,
contract 3. -/
def exProtoOpenPosition : DlcProtocolRecord := ⟨9, 11, 7, some 3, .openPosition 11⟩

/-- A store with one channel record, one protocol record and one position of
trader 11 in Closing state. -/
def exDb : Db := ⟨[exChannelRecord], [exProtoOpenPosition], [⟨1, 11, .closing none⟩]⟩

/-- `exDb` without any position rows. -/
def exDbNoPos : Db := ⟨[exChannelRecord], [exProtoOpenPosition], []⟩

/-- An engine whose wallet owns script 0 and which resolves no lookups. -/
def exEngine0 : Engine :=
  ⟨fun _ => none, fun _ => none, fun _ => none, fun _ => none, fun s => s == 0⟩

/-- An engine that resolves reference id 9 to an (otherwise opaque) channel
with id 7 and counterparty 11. -/
def exEngineCh : Engine :=
  ⟨fun r => if r == 9 then some (.otherChannel 7 11 0) else none,
   fun _ => none, fun _ => none, fun _ => none, fun s => s == 0⟩

/-! ### C1 -/

/-- C1: for every signed closing transaction and stored channel record,
`calculate_trader_realized_pnl_from_cet` returns the sum of the values of
the outputs whose script the coordinator does not own (per the is-mine
oracle) minus the stored `trader_reserve_sats`, as a signed integer. -/
theorem calculate_trader_realized_pnl_correct (env : Engine) (db : Db)
    (channel_id : DlcChannelId) (signed_cet : Transaction) (rec : DlcChannelRecord)
    (h : get_dlc_channel db channel_id = some rec) :
    calculate_trader_realized_pnl_from_cet env db channel_id signed_cet =
      .ok ((Nat.cast (((signed_cet.output.filter
              (fun o => !(env.is_mine o.script_pubkey))).map (fun o => o.value)).sum) : Int)
            - (Nat.cast rec.trader_reserve_sats : Int)) := by
  unfold calculate_trader_realized_pnl_from_cet
  rw [h]

/-- Witness for C1 at the spec's two instances: non-coordinator outputs
summing to 5000 against reserve 4700 give +300; 4000 against 4700 give
-700. -/
theorem calculate_trader_realized_pnl_correct_witness :
    calculate_trader_realized_pnl_from_cet exEngine0 exDb 7 exCetGain = .ok 300 ∧
    calculate_trader_realized_pnl_from_cet exEngine0 exDb 7 exCetLoss = .ok (-700) := by
  constructor
  · rw [calculate_trader_realized_pnl_correct exEngine0 exDb 7 exCetGain exChannelRecord rfl]
    rfl
  · rw [calculate_trader_realized_pnl_correct exEngine0 exDb 7 exCetLoss exChannelRecord rfl]
    rfl

/-! ### C7 -/

/-- C7: every event lacking a reference id makes `shadow_dlc_channel` return
an error while inserting and updating nothing. -/
theorem shadow_missing_reference_id_rejects (env : Engine) (db : Db)
    (ev : DlcChannelEvent) (h : ev.get_reference_id = none) :
    shadow_dlc_channel env db ev = (db, .error .missingReferenceId) :=
  shadow_eval_none env db ev h

/-- Witness for C7: an Offered event without a reference id is rejected and
the store is untouched. -/
theorem shadow_missing_reference_id_rejects_witness :
    shadow_dlc_channel exEngine0 exDb (.offered none) =
      (exDb, .error .missingReferenceId) :=
  shadow_missing_reference_id_rejects exEngine0 exDb (.offered none) rfl

/-! ### C8 -/

/-- C8: the closing price is parsed from the concatenated outcome digit
strings of the first attestation interpreted in base 2; an attestation whose
joined outcome string is "101" parses to the decimal value 5. -/
theorem closing_price_base2_parse :
    (∀ (attestations : List Attestation) (a : Attestation),
        attestations.head? = some a →
        parse_closing_price attestations = from_str_radix_2 (String.join a.outcomes)) ∧
    parse_closing_price [⟨["10", "1"]⟩] = .ok 5 := by
  constructor
  · intro attestations a h
    unfold parse_closing_price
    rw [h]
  · rfl

/-- Witness for C8: the general characterization applied to the concrete
attestation with outcomes "1", "0", "1", whose joined string "101" parses to
5. -/
theorem closing_price_base2_parse_witness :
    parse_closing_price [⟨["1", "0", "1"]⟩] =
      from_str_radix_2 (String.join ["1", "0", "1"]) ∧
    from_str_radix_2 (String.join ["1", "0", "1"]) = .ok 5 := by
  refine ⟨closing_price_base2_parse.1 [⟨["1", "0", "1"]⟩] ⟨["1", "0", "1"]⟩ rfl, ?_⟩
  rfl

/-! ### C4 -/

/-- C4: on a Closing event the closure-check handler moves the trader's
currently-Open positions to Closing with no price and succeeds; when the
trader has no Open position the update affects zero rows and the handler
still succeeds, leaving the store unchanged. -/
theorem closure_check_closing_tolerates_no_open_position (env : Engine) (db : Db)
    (rid : ReferenceId) (ch : Channel)
    (hch : env.get_dlc_channel_by_reference_id rid = some ch) :
    check_for_dlc_channel_closures env db (.closing (some rid)) =
      ({ db with positions :=
          (set_open_position_to_closing db.positions ch.get_counter_party_id none).2 },
       [], .ok ()) ∧
    List.Forall₂ (open_to_closing_applied ch.get_counter_party_id) db.positions
      (set_open_position_to_closing db.positions ch.get_counter_party_id none).2 ∧
    ((∀ p ∈ db.positions, ¬(p.trader = ch.get_counter_party_id ∧ p.state = .open)) →
        (set_open_position_to_closing db.positions ch.get_counter_party_id none).1 = 0 ∧
        check_for_dlc_channel_closures env db (.closing (some rid)) =
          (db, [], .ok ())) := by
  have heval : check_for_dlc_channel_closures env db (.closing (some rid)) =
      ({ db with positions :=
          (set_open_position_to_closing db.positions ch.get_counter_party_id none).2 },
       [], .ok ()) := by
    simp [check_for_dlc_channel_closures, DlcChannelEvent.get_reference_id, hch]
  have hcond : ∀ p : Position,
      ¬(p.trader = ch.get_counter_party_id ∧ p.state = .open) →
      (p.trader == ch.get_counter_party_id && p.state.isOpen) = false := by
    intro p hp
    by_cases ht : p.trader = ch.get_counter_party_id
    · by_cases hs : p.state.isOpen = true
      · have hopen : p.state = .open := by
          cases hst : p.state
          · rfl
          · rw [hst] at hs; simp [PositionState.isOpen] at hs
          · rw [hst] at hs; simp [PositionState.isOpen] at hs
        exact absurd ⟨ht, hopen⟩ hp
      · simp [ht, eq_false_of_ne_true hs]
    · simp [ht]
  refine ⟨heval, ?_, ?_⟩
  · refine forall2_map_self (fun p => ?_) db.positions
    unfold open_to_closing_applied
    by_cases hc : (p.trader == ch.get_counter_party_id && p.state.isOpen) = true
    · simp [hc]
    · simp [hc, eq_false_of_ne_true hc]
  · intro hnone
    have hfilter :
        (db.positions.filter
          (fun p => p.trader == ch.get_counter_party_id && p.state.isOpen)) = [] := by
      rw [List.filter_eq_nil_iff]
      intro p hp
      simp only [Bool.not_eq_true]
      exact hcond p (hnone p hp)
    have hmap : (set_open_position_to_closing db.positions
        ch.get_counter_party_id none).2 = db.positions := by
      unfold set_open_position_to_closing
      refine map_id_of_mem (fun p hp => ?_)
      simp [hcond p (hnone p hp)]
    constructor
    · unfold set_open_position_to_closing
      rw [hfilter]
      rfl
    · rw [heval, hmap]

/-- Witness for C4: a Closing event for channel 7 (trader 11) over a store
whose only position of trader 11 is already Closing: zero rows affected,
success, store unchanged. -/
theorem closure_check_closing_tolerates_no_open_position_witness :
    (check_for_dlc_channel_closures exEngineCh exDb (.closing (some 9)) =
      ({ exDb with positions :=
          (set_open_position_to_closing exDb.positions
            (Channel.otherChannel 7 11 0).get_counter_party_id none).2 },
       [], .ok ()) ∧
    List.Forall₂ (open_to_closing_applied (Channel.otherChannel 7 11 0).get_counter_party_id)
      exDb.positions
      (set_open_position_to_closing exDb.positions
        (Channel.otherChannel 7 11 0).get_counter_party_id none).2 ∧
    ((∀ p ∈ exDb.positions,
        ¬(p.trader = (Channel.otherChannel 7 11 0).get_counter_party_id ∧
           p.state = .open)) →
        (set_open_position_to_closing exDb.positions
          (Channel.otherChannel 7 11 0).get_counter_party_id none).1 = 0 ∧
        check_for_dlc_channel_closures exEngineCh exDb (.closing (some 9)) =
          (exDb, [], .ok ()))) :=
  closure_check_closing_tolerates_no_open_position exEngineCh exDb 9
    (Channel.otherChannel 7 11 0) rfl

/-! ### C10 -/

/-- C10: on a Closed or CounterClosed event, when no Closing-state position
exists for the trader, the closure-check handler errors out before any PnL
computation, price parse or position write: the result is the
missing-position error with the store unchanged, for every contract object
the engine may report (even one in an unexpected state). -/
theorem closure_check_missing_closing_position (env : Engine) (db : Db)
    (rid : ReferenceId) (ev : DlcChannelEvent) (proto : DlcProtocolRecord)
    (cid : ContractId) (contract : Contract)
    (hev : ev = .closed (some rid) ∨ ev = .counterClosed (some rid))
    (hp : get_dlc_protocol db rid = some proto)
    (hcid : proto.contract_id = some cid)
    (hcon : env.get_contract_by_id cid = some contract)
    (hnone : get_position_by_trader db.positions proto.trader = none) :
    check_for_dlc_channel_closures env db ev =
      (db, [], .error .missingClosingPosition) := by
  rcases hev with rfl | rfl <;>
    simp [check_for_dlc_channel_closures, DlcChannelEvent.get_reference_id,
      hp, hcid, hcon, hnone]

/-- Witness for C10: a Closed event whose contract is in an unexpected state
while the trader has no Closing position: the missing-position error fires
(showing the position lookup precedes the contract-state check and the PnL
computation). -/
theorem closure_check_missing_closing_position_witness :
    check_for_dlc_channel_closures
      ⟨fun _ => none, fun _ => none, fun _ => none,
       fun c => if c == 3 then some (.otherContract 0) else none, fun s => s == 0⟩
      exDbNoPos (.closed (some 9)) =
      (exDbNoPos, [], .error .missingClosingPosition) :=
  closure_check_missing_closing_position
    ⟨fun _ => none, fun _ => none, fun _ => none,
     fun c => if c == 3 then some (.otherContract 0) else none, fun s => s == 0⟩
    exDbNoPos 9 (.closed (some 9)) exProtoOpenPosition 3 (.otherContract 0)
    (Or.inl rfl) rfl rfl rfl rfl

/-! ### C9 -/

/-- C9: on a CollaborativelyClosed event whose channel resolves to a
collaboratively closed channel, `shadow_dlc_channel` persists the close txid
and moves the shadow channel to Closed, and
`check_for_dlc_channel_closures` invokes the Protocol Executor's finalize
operation for the owning protocol while leaving the store untouched (no PnL
computation, no position update). -/
theorem collaboratively_closed_reconciliation (env : Engine) (db : Db)
    (rid : ReferenceId) (cc : ClosedChannel)
    (hch : env.get_dlc_channel_by_reference_id rid =
      some (.collaborativelyClosed cc)) :
    shadow_dlc_channel env db (.collaborativelyClosed (some rid)) =
      (set_channel_collab_closed db cc.channel_id cc.closing_txid, .ok ()) ∧
    List.Forall₂ (collab_closed_applied cc.channel_id cc.closing_txid)
      db.dlc_channels
      (set_channel_collab_closed db cc.channel_id cc.closing_txid).dlc_channels ∧
    (set_channel_collab_closed db cc.channel_id cc.closing_txid).positions =
      db.positions ∧
    (set_channel_collab_closed db cc.channel_id cc.closing_txid).dlc_protocols =
      db.dlc_protocols ∧
    check_for_dlc_channel_closures env db (.collaborativelyClosed (some rid)) =
      (db, [rid], .ok ()) := by
  refine ⟨?_, ?_, rfl, rfl, ?_⟩
  · simp [shadow_dlc_channel, DlcChannelEvent.get_reference_id, hch, Channel.get_id]
  · refine forall2_map_self (fun r => ?_) db.dlc_channels
    unfold collab_closed_applied
    by_cases hc : (r.channel_id == cc.channel_id) = true
    · simp [hc]
    · simp [hc, eq_false_of_ne_true hc]
  · simp [check_for_dlc_channel_closures, DlcChannelEvent.get_reference_id, hch]

/-- Witness for C9: reference id 9 resolving to collaboratively closed
channel 7 (trader 11) with closing txid 60 over the example store. -/
theorem collaboratively_closed_reconciliation_witness :
    shadow_dlc_channel
        ⟨fun r => if r == 9 then some (.collaborativelyClosed ⟨7, 11, 60⟩) else none,
         fun _ => none, fun _ => none, fun _ => none, fun s => s == 0⟩
        exDb (.collaborativelyClosed (some 9)) =
      (set_channel_collab_closed exDb 7 60, .ok ()) ∧
    List.Forall₂ (collab_closed_applied 7 60) exDb.dlc_channels
      (set_channel_collab_closed exDb 7 60).dlc_channels ∧
    (set_channel_collab_closed exDb 7 60).positions = exDb.positions ∧
    (set_channel_collab_closed exDb 7 60).dlc_protocols = exDb.dlc_protocols ∧
    check_for_dlc_channel_closures
        ⟨fun r => if r == 9 then some (.collaborativelyClosed ⟨7, 11, 60⟩) else none,
         fun _ => none, fun _ => none, fun _ => none, fun s => s == 0⟩
        exDb (.collaborativelyClosed (some 9)) =
      (exDb, [9], .ok ()) :=
  collaboratively_closed_reconciliation
    ⟨fun r => if r == 9 then some (.collaborativelyClosed ⟨7, 11, 60⟩) else none,
     fun _ => none, fun _ => none, fun _ => none, fun s => s == 0⟩
    exDb 9 ⟨7, 11, 60⟩ rfl

/-! ### C5 (corrected) -/

/-- C5 counterexample: a FailedAccept event whose reference id does not
resolve to a channel object in the external engine makes
`shadow_dlc_channel` fail without marking anything — so FailedAccept does
require the channel object to exist upstream; and a Deleted event does
modify a DlcChannel row (the shadow channel created under protocol 9 moves
to Failed) while protocol records stay untouched. -/
theorem shadow_failure_events_cx :
    shadow_dlc_channel exEngine0 exDb (.failedAccept (some 9)) =
      (exDb, .error .channelNotFound) ∧
    (shadow_dlc_channel exEngine0 exDb (.deleted (some 9))).1.dlc_channels ≠
      exDb.dlc_channels ∧
    (shadow_dlc_channel exEngine0 exDb (.deleted (some 9))).1.dlc_protocols =
      exDb.dlc_protocols := by
  refine ⟨rfl, ?_, rfl⟩
  decide

/-- C5 (amended): for every Deleted, FailedAccept, FailedSign or Cancelled
event carrying a reference id, `shadow_dlc_channel` only updates the shadow
DlcChannel record keyed by that protocol id — marking its channel state
Failed (Deleted, FailedAccept, FailedSign) or Cancelled (Cancelled) — and
touches no protocol or position record; Deleted returns immediately without
any channel lookup (the result is the same under any engine), while
FailedAccept, FailedSign and Cancelled do require the channel lookup by
reference id to succeed and fail otherwise. -/
theorem shadow_failure_events (env envAlt : Engine) (db : Db) (rid : ReferenceId)
    (ch : Channel)
    (hch : env.get_dlc_channel_by_reference_id rid = some ch) :
    shadow_dlc_channel envAlt db (.deleted (some rid)) =
      (set_channel_failed db rid, .ok ()) ∧
    shadow_dlc_channel env db (.failedAccept (some rid)) =
      (set_channel_failed db rid, .ok ()) ∧
    shadow_dlc_channel env db (.failedSign (some rid)) =
      (set_channel_failed db rid, .ok ()) ∧
    shadow_dlc_channel env db (.cancelled (some rid)) =
      (set_channel_cancelled db rid, .ok ()) ∧
    (set_channel_failed db rid).dlc_protocols = db.dlc_protocols ∧
    (set_channel_failed db rid).positions = db.positions ∧
    (set_channel_cancelled db rid).dlc_protocols = db.dlc_protocols ∧
    (set_channel_cancelled db rid).positions = db.positions := by
  refine ⟨rfl, ?_, ?_, ?_, rfl, rfl, rfl, rfl⟩ <;>
    simp [shadow_dlc_channel, DlcChannelEvent.get_reference_id, hch]

/-- Witness for C5 (amended): the engine resolving reference id 9 handles
FailedAccept/FailedSign/Cancelled, while Deleted succeeds even under the
engine that resolves nothing. -/
theorem shadow_failure_events_witness :
    shadow_dlc_channel exEngine0 exDb (.deleted (some 9)) =
      (set_channel_failed exDb 9, .ok ()) ∧
    shadow_dlc_channel exEngineCh exDb (.failedAccept (some 9)) =
      (set_channel_failed exDb 9, .ok ()) ∧
    shadow_dlc_channel exEngineCh exDb (.failedSign (some 9)) =
      (set_channel_failed exDb 9, .ok ()) ∧
    shadow_dlc_channel exEngineCh exDb (.cancelled (some 9)) =
      (set_channel_cancelled exDb 9, .ok ()) ∧
    (set_channel_failed exDb 9).dlc_protocols = exDb.dlc_protocols ∧
    (set_channel_failed exDb 9).positions = exDb.positions ∧
    (set_channel_cancelled exDb 9).dlc_protocols = exDb.dlc_protocols ∧
    (set_channel_cancelled exDb 9).positions = exDb.positions :=
  shadow_failure_events exEngineCh exEngine0 exDb 9 (.otherChannel 7 11 0) rfl

/-! ### C6 (corrected) -/

/-- C6 counterexample: an Accepted event without a reference id does not
return success — `shadow_dlc_channel` rejects it — so the intermediate
negotiation events do have a failure mode. -/
theorem shadow_intermediate_events_cx :
    shadow_dlc_channel exEngine0 exDb (.accepted none) =
      (exDb, .error .missingReferenceId) := rfl

/-- C6 (amended): every intermediate negotiation event (Accepted,
SettledOffered, SettledReceived, SettledAccepted, SettledConfirmed,
RenewOffered, RenewAccepted, RenewConfirmed, RenewFinalized) leaves the
store unchanged, and `shadow_dlc_channel` returns success exactly when the
event carries a reference id that resolves to a channel in the external
engine; a missing reference id or a failed channel lookup yields an error
(still with no state change). -/
theorem shadow_intermediate_events (env : Engine) (db : Db) (ev : DlcChannelEvent)
    (hint : ev.isIntermediate = true) :
    (shadow_dlc_channel env db ev).1 = db ∧
    (∀ rid ch, ev.get_reference_id = some rid →
        env.get_dlc_channel_by_reference_id rid = some ch →
        (shadow_dlc_channel env db ev).2 = .ok ()) ∧
    (ev.get_reference_id = none →
        (shadow_dlc_channel env db ev).2 = .error .missingReferenceId) ∧
    (∀ rid, ev.get_reference_id = some rid →
        env.get_dlc_channel_by_reference_id rid = none →
        (shadow_dlc_channel env db ev).2 = .error .channelNotFound) := by
  have key : ∀ rid, ev.get_reference_id = some rid →
      shadow_dlc_channel env db ev =
        (db, match env.get_dlc_channel_by_reference_id rid with
             | none => .error .channelNotFound
             | some _ => .ok ()) := by
    intro rid hr
    cases ev <;> simp only [DlcChannelEvent.isIntermediate] at hint <;>
      first
        | simp at hint
        | (simp only [DlcChannelEvent.get_reference_id] at hr
           subst hr
           cases henv : env.get_dlc_channel_by_reference_id rid <;>
             simp [shadow_dlc_channel, DlcChannelEvent.get_reference_id, henv])
  refine ⟨?_, ?_, ?_, ?_⟩
  · cases hr : ev.get_reference_id with
    | none => rw [shadow_eval_none env db ev hr]
    | some rid =>
      rw [key rid hr]
  · intro rid ch hr hch
    rw [key rid hr, hch]
  · intro hr
    rw [shadow_eval_none env db ev hr]
  · intro rid hr hch
    rw [key rid hr, hch]

/-- Witness for C6 (amended): an Accepted event with reference id 9 under
the engine that resolves it to a channel. -/
theorem shadow_intermediate_events_witness :
    (shadow_dlc_channel exEngineCh exDb (.accepted (some 9))).1 = exDb ∧
    (∀ rid ch, (DlcChannelEvent.accepted (some 9)).get_reference_id = some rid →
        exEngineCh.get_dlc_channel_by_reference_id rid = some ch →
        (shadow_dlc_channel exEngineCh exDb (.accepted (some 9))).2 = .ok ()) ∧
    ((DlcChannelEvent.accepted (some 9)).get_reference_id = none →
        (shadow_dlc_channel exEngineCh exDb (.accepted (some 9))).2 =
          .error .missingReferenceId) ∧
    (∀ rid, (DlcChannelEvent.accepted (some 9)).get_reference_id = some rid →
        exEngineCh.get_dlc_channel_by_reference_id rid = none →
        (shadow_dlc_channel exEngineCh exDb (.accepted (some 9))).2 =
          .error .channelNotFound) :=
  shadow_intermediate_events exEngineCh exDb (.accepted (some 9)) rfl

/-! ### C2 -/

/-- A signed channel snapshot: channel 7, trader 11, coordinator collateral
8000, trader collateral 7000, funding tx 50. -/
def exSignedChannel : SignedChannel := ⟨7, 11, ⟨8000⟩, ⟨7000⟩, ⟨50, []⟩, .otherState 1⟩

/-- An engine resolving reference id 9 to the signed channel and serving
usable balances for channel 7: coordinator 10300, trader 5000. -/
def exEngineC2 : Engine :=
  ⟨fun r => if r == 9 then some (.signed exSignedChannel) else none,
   fun c => if c == 7 then some 10300 else none,
   fun c => if c == 7 then some 5000 else none,
   fun _ => none, fun s => s == 0⟩

/-- C2: for an Established or Settled event on a signed channel, if the
owning protocol's type is OpenPosition/Settle/Rollover/ResizePosition the
handler applies only the reserve-balance update (protocols, positions,
channel states, funding amounts and all txids are untouched); for
Close/ForceClose it performs no update at all; and for OpenChannel it
records the funding txid and initial funding amounts, transitioning the
matching record to Open. -/
theorem shadow_established_settled_scoping (env : Engine) (db : Db)
    (rid : ReferenceId) (ev : DlcChannelEvent) (sc : SignedChannel)
    (trader_reserve coordinator_reserve : Amount) (proto : DlcProtocolRecord)
    (hev : ev = .established (some rid) ∨ ev = .settled (some rid))
    (hch : env.get_dlc_channel_by_reference_id rid = some (.signed sc))
    (htr : env.get_dlc_channel_usable_balance_counterparty sc.channel_id =
      some trader_reserve)
    (hcr : env.get_dlc_channel_usable_balance sc.channel_id = some coordinator_reserve)
    (hp : get_dlc_protocol db rid = some proto) :
    (proto.protocol_type.isBalanceUpdate = true →
        shadow_dlc_channel env db ev =
          (update_channel db sc.channel_id coordinator_reserve trader_reserve,
           .ok ())) ∧
    (update_channel db sc.channel_id coordinator_reserve trader_reserve).dlc_protocols =
      db.dlc_protocols ∧
    (update_channel db sc.channel_id coordinator_reserve trader_reserve).positions =
      db.positions ∧
    List.Forall₂ reserves_only_changed db.dlc_channels
      (update_channel db sc.channel_id coordinator_reserve trader_reserve).dlc_channels ∧
    (proto.protocol_type.isCloseProtocol = true →
        shadow_dlc_channel env db ev = (db, .ok ())) ∧
    (proto.protocol_type.isOpenChannel = true →
        shadow_dlc_channel env db ev =
          (set_dlc_channel_open db rid sc.channel_id sc.fund_tx.txid
            coordinator_reserve trader_reserve sc.own_params.collateral
            sc.counter_params.collateral, .ok ()) ∧
        List.Forall₂ (open_transition_applied rid sc.channel_id sc.fund_tx.txid
            coordinator_reserve trader_reserve sc.own_params.collateral
            sc.counter_params.collateral)
          db.dlc_channels
          (set_dlc_channel_open db rid sc.channel_id sc.fund_tx.txid
            coordinator_reserve trader_reserve sc.own_params.collateral
            sc.counter_params.collateral).dlc_channels) := by
  refine ⟨?_, rfl, rfl, ?_, ?_, ?_⟩
  · intro hb
    rcases hev with rfl | rfl <;> cases hpt : proto.protocol_type <;>
      rw [hpt] at hb <;> simp [DlcProtocolType.isBalanceUpdate] at hb <;>
      simp [shadow_dlc_channel, DlcChannelEvent.get_reference_id, hch, htr, hcr,
        hp, hpt, Channel.get_id]
  · refine forall2_map_self (fun r => ?_) db.dlc_channels
    unfold reserves_only_changed
    by_cases hc : (r.channel_id == sc.channel_id) = true
    · simp [hc]
    · simp [hc, eq_false_of_ne_true hc]
  · intro hb
    rcases hev with rfl | rfl <;> cases hpt : proto.protocol_type <;>
      rw [hpt] at hb <;> simp [DlcProtocolType.isCloseProtocol] at hb <;>
      simp [shadow_dlc_channel, DlcChannelEvent.get_reference_id, hch, htr, hcr,
        hp, hpt]
  · intro hb
    have hframe : List.Forall₂ (open_transition_applied rid sc.channel_id
        sc.fund_tx.txid coordinator_reserve trader_reserve sc.own_params.collateral
        sc.counter_params.collateral)
        db.dlc_channels
        (set_dlc_channel_open db rid sc.channel_id sc.fund_tx.txid coordinator_reserve
          trader_reserve sc.own_params.collateral
          sc.counter_params.collateral).dlc_channels := by
      refine forall2_map_self (fun r => ?_) db.dlc_channels
      unfold open_transition_applied
      by_cases hc : (r.open_protocol_id == rid && r.channel_id == sc.channel_id) = true
      · simp [hc]
      · simp [hc, eq_false_of_ne_true hc]
    refine ⟨?_, hframe⟩
    rcases hev with rfl | rfl <;> cases hpt : proto.protocol_type <;>
      rw [hpt] at hb <;> simp [DlcProtocolType.isOpenChannel] at hb <;>
      simp [shadow_dlc_channel, DlcChannelEvent.get_reference_id, hch, htr, hcr,
        hp, hpt, Channel.get_id]

/-- Witness for C2: an Established event for protocol 9 (type OpenPosition)
on signed channel 7 with balances (coordinator 10300, trader 5000). -/
theorem shadow_established_settled_scoping_witness :
    ((exProtoOpenPosition.protocol_type.isBalanceUpdate = true →
        shadow_dlc_channel exEngineC2 exDb (.established (some 9)) =
          (update_channel exDb exSignedChannel.channel_id 10300 5000, .ok ())) ∧
    (update_channel exDb exSignedChannel.channel_id 10300 5000).dlc_protocols =
      exDb.dlc_protocols ∧
    (update_channel exDb exSignedChannel.channel_id 10300 5000).positions =
      exDb.positions ∧
    List.Forall₂ reserves_only_changed exDb.dlc_channels
      (update_channel exDb exSignedChannel.channel_id 10300 5000).dlc_channels ∧
    (exProtoOpenPosition.protocol_type.isCloseProtocol = true →
        shadow_dlc_channel exEngineC2 exDb (.established (some 9)) = (exDb, .ok ())) ∧
    (exProtoOpenPosition.protocol_type.isOpenChannel = true →
        shadow_dlc_channel exEngineC2 exDb (.established (some 9)) =
          (set_dlc_channel_open exDb 9 exSignedChannel.channel_id
            exSignedChannel.fund_tx.txid 10300 5000 exSignedChannel.own_params.collateral
            exSignedChannel.counter_params.collateral, .ok ()) ∧
        List.Forall₂ (open_transition_applied 9 exSignedChannel.channel_id
            exSignedChannel.fund_tx.txid 10300 5000 exSignedChannel.own_params.collateral
            exSignedChannel.counter_params.collateral)
          exDb.dlc_channels
          (set_dlc_channel_open exDb 9 exSignedChannel.channel_id
            exSignedChannel.fund_tx.txid 10300 5000 exSignedChannel.own_params.collateral
            exSignedChannel.counter_params.collateral).dlc_channels)) :=
  shadow_established_settled_scoping exEngineC2 exDb 9 (.established (some 9))
    exSignedChannel 5000 10300 exProtoOpenPosition (Or.inl rfl) rfl rfl rfl rfl

/-! ### C3 -/

/-- A pre-closed contract carrying one attestation with joined outcome
string "101" and the signed CET paying the trader 5000 sats. -/
def exContractPre : Contract := .preClosed ⟨some [⟨["101"]⟩], exCetGain⟩

/-- An engine serving `exContractPre` as contract 3 and owning script 0. -/
def exEngineC3 : Engine :=
  ⟨fun _ => none, fun _ => none, fun _ => none,
   fun c => if c == 3 then some exContractPre else none, fun s => s == 0⟩

/-- C3: on a Closed or CounterClosed event, the handler requires the fetched
contract to be PreClosed or Closed with attestations and a signed CET
present — every other contract shape yields an error with the store
unchanged; when the requirement holds (and pnl and price compute) it
transitions the trader's located Closing position to Closed with the
computed pnl and parsed price and succeeds; and the final update step
succeeds whether or not it affects any rows. -/
theorem closure_check_closed_contract_requirements (env : Engine) (db : Db)
    (rid : ReferenceId) (ev : DlcChannelEvent) (proto : DlcProtocolRecord)
    (cid : ContractId) (contract : Contract) (position : Position)
    (hev : ev = .closed (some rid) ∨ ev = .counterClosed (some rid))
    (hp : get_dlc_protocol db rid = some proto)
    (hcid : proto.contract_id = some cid)
    (hcon : env.get_contract_by_id cid = some contract)
    (hpos : get_position_by_trader db.positions proto.trader = some position) :
    (contract_closure_data contract = none →
        check_for_dlc_channel_closures env db ev =
          (db, [], .error .unexpectedContractState)) ∧
    (∀ (attestations : List Attestation) (signed_cet : Transaction)
        (pnl : Int) (closing_price : Nat),
        contract_closure_data contract = some (attestations, signed_cet) →
        calculate_trader_realized_pnl_from_cet env db proto.channel_id signed_cet =
          .ok pnl →
        parse_closing_price attestations = .ok closing_price →
        check_for_dlc_channel_closures env db ev =
          ({ db with positions := (set_position_to_closed_with_pnl db.positions
              position.id pnl closing_price).2 }, [], .ok ())) ∧
    (∀ (db2 : Db) (position_id : Nat) (pnl : Int) (closing_price : Nat),
        (finalize_position_close db2 position_id pnl closing_price).2 = .ok ()) := by
  refine ⟨?_, ?_, ?_⟩
  · intro hdata
    rcases hev with rfl | rfl <;>
      simp [check_for_dlc_channel_closures, DlcChannelEvent.get_reference_id,
        hp, hcid, hcon, hpos, hdata]
  · intro attestations signed_cet pnl closing_price hdata hpnl hprice
    rcases hev with rfl | rfl <;>
      simp [check_for_dlc_channel_closures, DlcChannelEvent.get_reference_id,
        hp, hcid, hcon, hpos, hdata, hpnl, hprice, finalize_position_close]
  · intro db2 position_id pnl closing_price
    unfold finalize_position_close
    simp [ite_self]

/-- Witness for C3: a Closed event for protocol 9 whose contract is
pre-closed with attestation "101" and CET paying 5000 against reserve 4700:
the position of trader 11 is closed with pnl +300 at price 5. -/
theorem closure_check_closed_contract_requirements_witness :
    ((contract_closure_data exContractPre = none →
        check_for_dlc_channel_closures exEngineC3 exDb (.closed (some 9)) =
          (exDb, [], .error .unexpectedContractState)) ∧
    (∀ (attestations : List Attestation) (signed_cet : Transaction)
        (pnl : Int) (closing_price : Nat),
        contract_closure_data exContractPre = some (attestations, signed_cet) →
        calculate_trader_realized_pnl_from_cet exEngineC3 exDb
          exProtoOpenPosition.channel_id signed_cet = .ok pnl →
        parse_closing_price attestations = .ok closing_price →
        check_for_dlc_channel_closures exEngineC3 exDb (.closed (some 9)) =
          ({ exDb with positions := (set_position_to_closed_with_pnl exDb.positions
              (Position.mk 1 11 (.closing none)).id pnl closing_price).2 },
           [], .ok ())) ∧
    (∀ (db2 : Db) (position_id : Nat) (pnl : Int) (closing_price : Nat),
        (finalize_position_close db2 position_id pnl closing_price).2 = .ok ())) :=
  closure_check_closed_contract_requirements exEngineC3 exDb 9 (.closed (some 9))
    exProtoOpenPosition 3 exContractPre (Position.mk 1 11 (.closing none))
    (Or.inl rfl) rfl rfl rfl rfl

end TenTenOne
